import Mathlib

/-!
Verification of the kami-batch 2D sprite batcher.

A shallow embedding of `src/index.js` (the `SpriteBatch` class) together
with the parts of its session-lifecycle mixin (`kami-base-batch`) that the
batcher relies on; the mixin is not part of this source tree, so those
parts are modelled from the specification and marked as such.

JavaScript numbers are modelled as `ℚ`; `undefined` / absent values are
modelled as `Option`; the `Float32Array` vertex store is a fixed-length
`List (Option ℚ)` (a cell holding `none` stands for the NaN produced by
writing `undefined` into a typed array; writes past the end are silently
dropped, as for a typed array).  Trigonometry (`Math.cos` / `Math.sin`)
is supplied by the host environment, so it enters the embedding as an
explicit function record.  Exceptions are surfaced as an `Option JsErr`
component of each operation's result, paired with the post-state (JS
mutations performed before a throw persist, so the post-state is returned
even on a throw).
-/

set_option autoImplicit false

/-- The host environment's trigonometry (`Math.cos`, `Math.sin`). -/
structure Trig where
  cos : ℚ → ℚ
  sin : ℚ → ℚ

/-- A texture handle (external collaborator, spec §6): an object identity
(`ref`, standing for the JavaScript reference), an `id` value usable for
equality comparison, and natural dimensions. -/
structure Texture where
  ref : ℕ
  id : ℕ
  width : ℚ
  height : ℚ
deriving DecidableEq

/-- A texture region: a sub-rectangle of a texture as normalized UV bounds,
with fields `texture`, `u`, `v`, `u2`, `v2` as read by `drawRegion`. -/
structure TextureRegion where
  texture : Texture
  u : ℚ
  v : ℚ
  u2 : ℚ
  v2 : ℚ

/-- The exceptions the embedded operations can surface: the
`'Illegal State: trying to draw a batch before begin()'` throw, and the
`ReferenceError` raised by reading an undeclared variable. -/
inductive JsErr where
  | illegalState
  | referenceError
deriving DecidableEq

/-- The state of one `SpriteBatch` instance.  `drawing`, `idx`, `vertices`
and `color` live on the `kami-base-batch` mixin (modelled from the spec,
§3/§4.1); `texture` and `projection` are set in the `SpriteBatch`
constructor (`src/index.js` lines 68 and 76); `renderCalls` models the
process-wide `SpriteBatch.totalRenderCalls` counter (line 500).  The
projection matrix is opaque to the batcher, so it is modelled as `ℕ`. -/
structure SpriteBatch where
  drawing : Bool
  idx : ℕ
  vertices : List (Option ℚ)
  texture : Option Texture
  color : ℚ
  projection : ℕ
  renderCalls : ℕ
deriving DecidableEq

/-- Modelled from the spec: §3 and §6, the constructor state provided by the
`kami-base-batch` mixin, which is not in this source tree — a freshly
constructed batch with a
capacity of `cap` quads.  The vertex buffer is a `Float32Array` of
`cap × 4 × vertexSize = cap × 20` floats, zero-initialised; `drawing` is
false, the cursor is 0, no texture is bound (`src/index.js` line 76), and
the global render-call counter starts at 0.  The default packed color's
exact value is immaterial to the claims; it is taken to be 1. -/
def mkBatch (cap : ℕ) : SpriteBatch :=
  { drawing := false
    idx := 0
    vertices := List.replicate (cap * 20) (some 0)
    texture := none
    color := 1
    projection := 0
    renderCalls := 0 }

namespace SpriteBatch

/-- Embeds `flush` (`src/index.js` lines 233-239): returns without effect when
`this.texture` is null or `this.idx` is 0; otherwise runs
`BaseBatch.prototype.flush` — modelled from the spec (§4.1): upload the
populated prefix, issue one indexed draw call, reset the cursor to 0,
leave `currentTexture` untouched — and increments
`SpriteBatch.totalRenderCalls`.  The upload and draw call are external
effects whose occurrence is observable through `renderCalls`. -/
def flush (s : SpriteBatch) : SpriteBatch :=
  match s.texture with
  | none => s
  | some _ =>
    if s.idx = 0 then s
    else { s with idx := 0, renderCalls := s.renderCalls + 1 }

/-- Modelled from the spec: §4.1, `BaseBatch.prototype.begin` as invoked by
`SpriteBatch.begin` (`src/index.js` lines 193-208); the mixin is not in this
source tree.  Fails with
IllegalState if already Drawing, otherwise enters the Drawing state.  The
shader/mesh binding, matrix upload, sampler uniform and depth-mask toggle
are external effects with no footprint in this state. -/
def beginBatch (s : SpriteBatch) : SpriteBatch × Option JsErr :=
  if s.drawing then (s, some .illegalState)
  else ({ s with drawing := true }, none)

/-- Modelled from the spec: §4.1, `BaseBatch.prototype.end` as invoked by
`SpriteBatch.end` (`src/index.js` lines 215-224); the mixin is not in this
source tree.  Fails with IllegalState
if not Drawing, otherwise forces `flush()` (the overridden `SpriteBatch`
flush) and leaves the Drawing state; restoring the depth mask is an
external effect. -/
def endBatch (s : SpriteBatch) : SpriteBatch × Option JsErr :=
  if s.drawing then ({ s.flush with drawing := false }, none)
  else (s, some .illegalState)

/-- Embeds `this.texture === null || this.texture.id !== texture.id`
(`src/index.js` line 292): the texture comparison used by `draw`. -/
def texIdNe (cur : Option Texture) (t : Texture) : Bool :=
  match cur with
  | none => true
  | some ct => ct.id ≠ t.id

/-- Embeds `this.texture != texture` (`src/index.js` line 427): the loose
inequality used by `drawVertices`; on objects it compares references
(`null != texture` is true for a non-null `texture`). -/
def texRefNe (cur : Option Texture) (t : Texture) : Bool :=
  match cur with
  | none => true
  | some ct => ct.ref ≠ t.ref

/-- The texture-switch / capacity-flush prelude of `draw`
(`src/index.js` lines 292-298): on a new texture (by `id`), flush then
rebind; else on a full buffer (`this.idx == this.vertices.length`),
flush. -/
def drawPre (s : SpriteBatch) (t : Texture) : SpriteBatch :=
  if texIdNe s.texture t then { s.flush with texture := some t }
  else if s.idx = s.vertices.length then s.flush
  else s

/-- The texture-switch / capacity-flush prelude of `drawVertices`
(`src/index.js` lines 427-433): identical to `drawPre` except the texture
comparison is the reference inequality `this.texture != texture`. -/
def dvPre (s : SpriteBatch) (t : Texture) : SpriteBatch :=
  if texRefNe s.texture t then { s.flush with texture := some t }
  else if s.idx = s.vertices.length then s.flush
  else s

/-- Embeds `width = width === 0 ? width : width || texture.width`
(`src/index.js` lines 300-301): an explicit 0 is kept; otherwise a falsy
value (modelled: `undefined`, i.e. `none`, or 0) falls back to the
texture's natural dimension. -/
def resolveDim (wopt : Option ℚ) (tw : ℚ) : ℚ :=
  match wopt with
  | none => tw
  | some w => if w = 0 then w else (if w = 0 then tw else w)

/-- Embeds `x = x || 0` (`src/index.js` lines 302-303): a falsy position
(`undefined` or 0) becomes 0. -/
def resolvePos (xopt : Option ℚ) : ℚ :=
  match xopt with
  | none => 0
  | some x => if x = 0 then 0 else x

/-- Embeds `off = off || 0` (`src/index.js` line 435): a falsy offset
(`undefined` or 0) becomes 0. -/
def offVal (off : Option ℕ) : ℕ :=
  match off with
  | none => 0
  | some v => if v = 0 then 0 else v

/-- Sequential writes `buf[i] = v; buf[i+1] = v'; ...`, the shape of the
`this.vertices[this.idx++] = ...` runs in `draw` and `drawVertices`;
`List.set` drops out-of-range writes exactly as a `Float32Array` does. -/
def writeSeq (buf : List (Option ℚ)) (i : ℕ) : List (Option ℚ) → List (Option ℚ)
  | [] => buf
  | v :: rest => writeSeq (buf.set i v) (i + 1) rest

/-- Embeds `if (scaleX !== 1) { x1 = x1 * scaleX; ... }` (`src/index.js` lines
317-329): the source guards the four x-assignments, and separately the
four y-assignments, by one `if` each; this is that guard applied to one
of them. -/
def scaleIf (s v : ℚ) : ℚ := if s ≠ 1 then v * s else v

/-- The x-part of one guarded rotation assignment of `draw`
(`src/index.js` lines 331-356): `cos * x - sin * y` when
`rotation !== 0`, the untouched `x` otherwise. -/
def rotXIf (r co si x y : ℚ) : ℚ := if r ≠ 0 then co * x - si * y else x

/-- The y-part of one guarded rotation assignment of `draw`
(`src/index.js` lines 331-356): `sin * x + cos * y` when
`rotation !== 0`, the untouched `y` otherwise. -/
def rotYIf (r co si x y : ℚ) : ℚ := if r ≠ 0 then si * x + co * y else y

/-- The quad construction of `draw` (`src/index.js` lines 305-402), after
the dimension/position defaults are resolved: corner setup relative to the
origin, conditional scale, conditional rotation (reading the pre-rotation
values), translation by `(x + originX, y + originY)`, and the interleaved
20-float layout `x, y, color, u, v` per vertex with UV order
`(u1,v1), (u2,v1), (u2,v2), (u1,v2)`. -/
def computeQuad (trig : Trig) (c w h xv yv originX originY rotation scaleX scaleY u1 v1 u2 v2 : ℚ) :
    List (Option ℚ) :=
  let x1 := -originX
  let x2 := w - originX
  let x3 := w - originX
  let x4 := -originX
  let y1 := -originY
  let y2 := -originY
  let y3 := h - originY
  let y4 := h - originY
  let sx1 := scaleIf scaleX x1
  let sx2 := scaleIf scaleX x2
  let sx3 := scaleIf scaleX x3
  let sx4 := scaleIf scaleX x4
  let sy1 := scaleIf scaleY y1
  let sy2 := scaleIf scaleY y2
  let sy3 := scaleIf scaleY y3
  let sy4 := scaleIf scaleY y4
  let co := trig.cos rotation
  let si := trig.sin rotation
  let rx1 := rotXIf rotation co si sx1 sy1
  let ry1 := rotYIf rotation co si sx1 sy1
  let rx2 := rotXIf rotation co si sx2 sy2
  let ry2 := rotYIf rotation co si sx2 sy2
  let rx3 := rotXIf rotation co si sx3 sy3
  let ry3 := rotYIf rotation co si sx3 sy3
  let rx4 := rotXIf rotation co si sx4 sy4
  let ry4 := rotYIf rotation co si sx4 sy4
  let fx1 := rx1 + (xv + originX)
  let fx2 := rx2 + (xv + originX)
  let fx3 := rx3 + (xv + originX)
  let fx4 := rx4 + (xv + originX)
  let fy1 := ry1 + (yv + originY)
  let fy2 := ry2 + (yv + originY)
  let fy3 := ry3 + (yv + originY)
  let fy4 := ry4 + (yv + originY)
  [some fx1, some fy1, some c, some u1, some v1,
   some fx2, some fy2, some c, some u2, some v1,
   some fx3, some fy3, some c, some u2, some v2,
   some fx4, some fy4, some c, some u1, some v2]

/-- Embeds `draw` (`src/index.js` lines 270-403): IllegalState when not drawing;
silently draws nothing on a null texture; otherwise runs the flush
prelude, resolves the width/height/position defaults, builds the quad at
the current color, appends its 20 floats at the cursor and advances the
cursor by 20. -/
def draw (trig : Trig) (s : SpriteBatch) (texture : Option Texture)
    (x y width height : Option ℚ)
    (originX originY rotation scaleX scaleY u1 v1 u2 v2 : ℚ) :
    SpriteBatch × Option JsErr :=
  if s.drawing = false then (s, some .illegalState)
  else
    match texture with
    | none => (s, none)
    | some t =>
      let s1 := drawPre s t
      let w := resolveDim width t.width
      let h := resolveDim height t.height
      let xv := resolvePos x
      let yv := resolvePos y
      let vals := computeQuad trig s1.color w h xv yv originX originY rotation scaleX scaleY u1 v1 u2 v2
      ({ s1 with vertices := writeSeq s1.vertices s1.idx vals, idx := s1.idx + 20 }, none)

/-- Embeds `drawRegion` (`src/index.js` lines 241-253): it calls
`this.draw(region.texture, x, y, width, height, region.u, region.v,
region.u2, region.v2)` — nine positional arguments against `draw`'s
fourteen parameters, so `region.u` lands in `originX`, `region.v` in
`originY`, `region.u2` in `rotation`, `region.v2` in `scaleX`, and
`scaleY, u1, v1, u2, v2` take their defaults `1, 0, 0, 1, 1`. -/
def drawRegion (trig : Trig) (s : SpriteBatch) (region : TextureRegion)
    (x y width height : Option ℚ) : SpriteBatch × Option JsErr :=
  draw trig s (some region.texture) x y width height
    region.u region.v region.u2 region.v2 1 0 0 1 1

/-- Embeds `drawVertices` (`src/index.js` lines 420-472): IllegalState when not
drawing; silently draws nothing on a null texture; otherwise runs the
reference-compared flush prelude, defaults the offset with `off = off || 0`,
then copies `verts[off] .. verts[off+19]` verbatim into the buffer at the
cursor — with no bounds check, an out-of-range read yielding `undefined`
(`none`) — and advances the cursor by 20. -/
def drawVertices (s : SpriteBatch) (texture : Option Texture)
    (verts : List ℚ) (off : Option ℕ) : SpriteBatch × Option JsErr :=
  if s.drawing = false then (s, some .illegalState)
  else
    match texture with
    | none => (s, none)
    | some t =>
      let s1 := dvPre s t
      let vals := (List.range 20).map fun k => verts[offVal off + k]?
      ({ s1 with vertices := writeSeq s1.vertices s1.idx vals, idx := s1.idx + 20 }, none)

/-- Embeds `setProjection` (`src/index.js` lines 136-142): stores the matrix
argument, then evaluates `this.drawing && (x != oldX || y != oldY)` —
`x`, `oldX`, `y`, `oldY` are undeclared variables, so when `this.drawing`
is true the comparison raises a ReferenceError and neither `flush()` nor
`updateMatrices()` is reached; when not drawing the conjunction
short-circuits and the call returns normally.  The assignment to
`this.projection` precedes the faulty read, so it persists either way. -/
def setProjection (s : SpriteBatch) (m : ℕ) : SpriteBatch × Option JsErr :=
  let s1 := { s with projection := m }
  if s1.drawing then (s1, some .referenceError) else (s1, none)

end SpriteBatch

/-! ## Specification-side geometry (for comparison with `computeQuad`)

Transcribed from the specification's words (§4.3 and claim C2), to be
compared with the definitions taken from the source. -/

/-- Spec §4.3 step 2: scale each corner's local coordinates by `(sx, sy)`
componentwise. -/
def specScale (sx sy : ℚ) (p : ℚ × ℚ) : ℚ × ℚ := (p.1 * sx, p.2 * sy)

/-- Spec §4.3 step 3: the standard 2D rotation
`x' = x·cosθ − y·sinθ, y' = x·sinθ + y·cosθ`, with the cosine and sine
values given. -/
def specRotate (c s : ℚ) (p : ℚ × ℚ) : ℚ × ℚ :=
  (p.1 * c - p.2 * s, p.1 * s + p.2 * c)

/-- Spec §4.3 steps 2-4 for a single corner: scale, then (when θ ≠ 0)
rotate by θ, then translate by `(tx, ty) = (x + ox, y + oy)`. -/
def specCorner (trig : Trig) (rot sx sy tx ty : ℚ) (p : ℚ × ℚ) : ℚ × ℚ :=
  let q := specScale sx sy p
  let r := if rot ≠ 0 then specRotate (trig.cos rot) (trig.sin rot) q else q
  (r.1 + tx, r.2 + ty)

/-- Spec §4.3 step 1: local corners relative to the origin, before
scale/rotation: `(−ox,−oy), (w−ox,−oy), (w−ox,h−oy), (−ox,h−oy)`. -/
def specLocalCorners (w h ox oy : ℚ) : List (ℚ × ℚ) :=
  [(-ox, -oy), (w - ox, -oy), (w - ox, h - oy), (-ox, h - oy)]

/-- Spec §4.3 step 5 and §3: the four world corners paired in order with
UVs `(u1,v1), (u2,v1), (u2,v2), (u1,v2)` in the interleaved
`x, y, color, u, v` vertex layout. -/
def specQuadVals (c u1 v1 u2 v2 : ℚ) : List (ℚ × ℚ) → List (Option ℚ)
  | [p1, p2, p3, p4] =>
    [some p1.1, some p1.2, some c, some u1, some v1,
     some p2.1, some p2.2, some c, some u2, some v1,
     some p3.1, some p3.2, some c, some u2, some v2,
     some p4.1, some p4.2, some c, some u1, some v2]
  | _ => []

/-! ## Call sequences and reachability -/

/-- One `draw()` call's optional/defaultable arguments, bundled so that a
sequence of calls with varying arguments can be quantified over. -/
structure DrawArgs where
  x : Option ℚ
  y : Option ℚ
  width : Option ℚ
  height : Option ℚ
  originX : ℚ
  originY : ℚ
  rotation : ℚ
  scaleX : ℚ
  scaleY : ℚ
  u1 : ℚ
  v1 : ℚ
  u2 : ℚ
  v2 : ℚ

/-- Applies `draw` to a bundled argument record. -/
def drawA (trig : Trig) (s : SpriteBatch) (texture : Option Texture) (a : DrawArgs) :
    SpriteBatch × Option JsErr :=
  SpriteBatch.draw trig s texture a.x a.y a.width a.height a.originX a.originY
    a.rotation a.scaleX a.scaleY a.u1 a.v1 a.u2 a.v2

/-- Iterates `n` successive `draw()` calls sharing the texture `t`, the
`k`-th call taking the arguments `f k`. -/
def drawSeq (trig : Trig) (t : Texture) (f : ℕ → DrawArgs) : ℕ → SpriteBatch → SpriteBatch
  | 0, s => s
  | n + 1, s => (drawA trig (drawSeq trig t f n s) (some t) (f n)).1

/-- The states reachable from a freshly constructed batch by any sequence
of `begin` / `draw` / `drawVertices` / `flush` / `end` calls with any
arguments. -/
inductive Reachable : SpriteBatch → Prop where
  | init (cap : ℕ) : Reachable (mkBatch cap)
  | stepBegin {s : SpriteBatch} : Reachable s → Reachable s.beginBatch.1
  | stepEnd {s : SpriteBatch} : Reachable s → Reachable s.endBatch.1
  | stepFlush {s : SpriteBatch} : Reachable s → Reachable s.flush
  | stepDraw {s : SpriteBatch} (trig : Trig) (texture : Option Texture)
      (x y width height : Option ℚ)
      (originX originY rotation scaleX scaleY u1 v1 u2 v2 : ℚ) :
      Reachable s →
      Reachable (SpriteBatch.draw trig s texture x y width height
        originX originY rotation scaleX scaleY u1 v1 u2 v2).1
  | stepDrawVertices {s : SpriteBatch} (texture : Option Texture)
      (verts : List ℚ) (off : Option ℕ) :
      Reachable s → Reachable (s.drawVertices texture verts off).1

/-! ## Concrete fixtures used by witnesses and counterexamples -/

/-- A host trigonometry for concrete evaluation; the concrete scenarios
below never rotate, so its values are immaterial. -/
def trig0 : Trig := ⟨fun _ => 0, fun _ => 0⟩

/-- A 16×16 texture with id 1. -/
def texW : Texture := ⟨0, 1, 16, 16⟩

/-- A 4×4 texture object with id 5. -/
def texA : Texture := ⟨0, 5, 4, 4⟩

/-- A distinct 4×4 texture object (different reference) with the same
id 5 as `texA`. -/
def texB : Texture := ⟨1, 5, 4, 4⟩

/-- A region of `texW` with the UV rectangle `(3, 5) - (7, 9)` (integer
values chosen so every slot of the region is distinguishable and exact
kernel evaluation stays cheap). -/
def regFix : TextureRegion := ⟨texW, 3, 5, 7, 9⟩

/-- A mid-session state: drawing, one quad buffered (cursor 20) out of a
2-quad buffer, current texture `texA`. -/
def stateC6 : SpriteBatch :=
  { drawing := true
    idx := 20
    vertices := List.replicate 40 (some 0)
    texture := some texA
    color := 1
    projection := 0
    renderCalls := 0 }

/-- Fixed arguments for concrete `draw` calls: position (0,0), size 1×1,
defaults elsewhere. -/
def argsFix : DrawArgs := ⟨some 0, some 0, some 1, some 1, 0, 0, 0, 1, 1, 0, 0, 1, 1⟩

/-- An 8×8 texture object with id 9, distinct from `texA` in both
reference and id. -/
def texC : Texture := ⟨2, 9, 8, 8⟩

/-- A mid-session state whose buffer is exactly full: drawing, cursor 20
with a 1-quad (20-float) buffer, current texture `texA`. -/
def stateFull : SpriteBatch :=
  { drawing := true
    idx := 20
    vertices := List.replicate 20 (some 0)
    texture := some texA
    color := 1
    projection := 0
    renderCalls := 0 }

/-! ## Basic lemmas about the embedded operations -/

namespace SpriteBatch

theorem writeSeq_length (vals : List (Option ℚ)) :
    ∀ (buf : List (Option ℚ)) (i : ℕ), (writeSeq buf i vals).length = buf.length := by
  induction vals with
  | nil => intro buf i; rfl
  | cons v rest ih =>
    intro buf i
    rw [writeSeq, ih, List.length_set]

theorem writeSeq_getElem?_lt (vals : List (Option ℚ)) :
    ∀ (buf : List (Option ℚ)) (i j : ℕ), j < i → (writeSeq buf i vals)[j]? = buf[j]? := by
  induction vals with
  | nil => intros; rfl
  | cons v rest ih =>
    intro buf i j hj
    rw [writeSeq, ih _ _ _ (Nat.lt_succ_of_lt hj), List.getElem?_set_ne (Nat.ne_of_gt hj)]

theorem writeSeq_getElem?_read (vals : List (Option ℚ)) :
    ∀ (buf : List (Option ℚ)) (i k : ℕ), k < vals.length → i + k < buf.length →
      (writeSeq buf i vals)[i + k]? = vals[k]? := by
  induction vals with
  | nil => intro buf i k hk _; exact absurd hk (Nat.not_lt_zero k)
  | cons v rest ih =>
    intro buf i k hk hbuf
    match k with
    | 0 =>
      rw [Nat.add_zero] at hbuf ⊢
      rw [writeSeq, writeSeq_getElem?_lt rest _ _ _ (Nat.lt_succ_self i),
        List.getElem?_set_self hbuf, List.getElem?_cons_zero]
    | k + 1 =>
      rw [writeSeq]
      have harr : i + (k + 1) = (i + 1) + k := by omega
      rw [harr, ih]
      · rw [List.getElem?_cons_succ]
      · exact Nat.lt_of_succ_lt_succ hk
      · rw [List.length_set]; omega

theorem flush_of_none {s : SpriteBatch} (h : s.texture = none) : s.flush = s := by
  simp [flush, h]

theorem flush_of_idx_zero {s : SpriteBatch} (h : s.idx = 0) : s.flush = s := by
  cases htex : s.texture <;> simp [flush, htex, h]

theorem flush_act {s : SpriteBatch} {t : Texture} (h : s.texture = some t) (h0 : s.idx ≠ 0) :
    s.flush = { s with idx := 0, renderCalls := s.renderCalls + 1 } := by
  simp [flush, h, h0]

theorem flush_idx (s : SpriteBatch) : s.flush.idx = 0 ∨ s.flush = s := by
  cases htex : s.texture with
  | none => exact Or.inr (flush_of_none htex)
  | some t =>
    by_cases h0 : s.idx = 0
    · exact Or.inr (flush_of_idx_zero h0)
    · exact Or.inl (by rw [flush_act htex h0])

theorem flush_texture (s : SpriteBatch) : s.flush.texture = s.texture := by
  cases htex : s.texture with
  | none => rw [flush_of_none htex, htex]
  | some t =>
    by_cases h0 : s.idx = 0
    · rw [flush_of_idx_zero h0, htex]
    · rw [flush_act htex h0]; exact htex

theorem flush_drawing (s : SpriteBatch) : s.flush.drawing = s.drawing := by
  cases htex : s.texture with
  | none => rw [flush_of_none htex]
  | some t =>
    by_cases h0 : s.idx = 0
    · rw [flush_of_idx_zero h0]
    · rw [flush_act htex h0]

theorem flush_vertices (s : SpriteBatch) : s.flush.vertices = s.vertices := by
  cases htex : s.texture with
  | none => rw [flush_of_none htex]
  | some t =>
    by_cases h0 : s.idx = 0
    · rw [flush_of_idx_zero h0]
    · rw [flush_act htex h0]

theorem flush_color (s : SpriteBatch) : s.flush.color = s.color := by
  cases htex : s.texture with
  | none => rw [flush_of_none htex]
  | some t =>
    by_cases h0 : s.idx = 0
    · rw [flush_of_idx_zero h0]
    · rw [flush_act htex h0]

theorem drawPre_switch {s : SpriteBatch} {t : Texture} (h : texIdNe s.texture t = true) :
    drawPre s t = { s.flush with texture := some t } := by
  simp [drawPre, h]

theorem drawPre_full {s : SpriteBatch} {t : Texture} (h : texIdNe s.texture t = false)
    (hf : s.idx = s.vertices.length) : drawPre s t = s.flush := by
  simp [drawPre, h, hf]

theorem drawPre_keep {s : SpriteBatch} {t : Texture} (h : texIdNe s.texture t = false)
    (hf : s.idx ≠ s.vertices.length) : drawPre s t = s := by
  simp [drawPre, h, hf]

theorem dvPre_switch {s : SpriteBatch} {t : Texture} (h : texRefNe s.texture t = true) :
    dvPre s t = { s.flush with texture := some t } := by
  simp [dvPre, h]

theorem dvPre_full {s : SpriteBatch} {t : Texture} (h : texRefNe s.texture t = false)
    (hf : s.idx = s.vertices.length) : dvPre s t = s.flush := by
  simp [dvPre, h, hf]

theorem dvPre_keep {s : SpriteBatch} {t : Texture} (h : texRefNe s.texture t = false)
    (hf : s.idx ≠ s.vertices.length) : dvPre s t = s := by
  simp [dvPre, h, hf]

theorem draw_of_not_drawing (trig : Trig) {s : SpriteBatch} (texture : Option Texture)
    (x y width height : Option ℚ) (originX originY rotation scaleX scaleY u1 v1 u2 v2 : ℚ)
    (h : s.drawing = false) :
    draw trig s texture x y width height originX originY rotation scaleX scaleY u1 v1 u2 v2 =
      (s, some .illegalState) := by
  simp [draw, h]

theorem draw_of_none (trig : Trig) {s : SpriteBatch}
    (x y width height : Option ℚ) (originX originY rotation scaleX scaleY u1 v1 u2 v2 : ℚ)
    (h : s.drawing = true) :
    draw trig s none x y width height originX originY rotation scaleX scaleY u1 v1 u2 v2 =
      (s, none) := by
  simp [draw, h]

theorem draw_of_some (trig : Trig) {s : SpriteBatch} (t : Texture)
    (x y width height : Option ℚ) (originX originY rotation scaleX scaleY u1 v1 u2 v2 : ℚ)
    (h : s.drawing = true) :
    draw trig s (some t) x y width height originX originY rotation scaleX scaleY u1 v1 u2 v2 =
      ({ drawPre s t with
          vertices := writeSeq (drawPre s t).vertices (drawPre s t).idx
            (computeQuad trig (drawPre s t).color (resolveDim width t.width)
              (resolveDim height t.height) (resolvePos x) (resolvePos y)
              originX originY rotation scaleX scaleY u1 v1 u2 v2),
          idx := (drawPre s t).idx + 20 }, none) := by
  simp [draw, h]

theorem drawVertices_of_not_drawing {s : SpriteBatch} (texture : Option Texture)
    (verts : List ℚ) (off : Option ℕ) (h : s.drawing = false) :
    drawVertices s texture verts off = (s, some .illegalState) := by
  simp [drawVertices, h]

theorem drawVertices_of_none {s : SpriteBatch} (verts : List ℚ) (off : Option ℕ)
    (h : s.drawing = true) : drawVertices s none verts off = (s, none) := by
  simp [drawVertices, h]

theorem drawVertices_of_some {s : SpriteBatch} (t : Texture) (verts : List ℚ) (off : Option ℕ)
    (h : s.drawing = true) :
    drawVertices s (some t) verts off =
      ({ dvPre s t with
          vertices := writeSeq (dvPre s t).vertices (dvPre s t).idx
            ((List.range 20).map fun k => verts[offVal off + k]?),
          idx := (dvPre s t).idx + 20 }, none) := by
  simp [drawVertices, h]

end SpriteBatch

/-! ## Further helper lemmas -/

namespace SpriteBatch

theorem texIdNe_false_some {cur : Option Texture} {t : Texture} (h : texIdNe cur t = false) :
    ∃ ct, cur = some ct ∧ ct.id = t.id := by
  cases cur with
  | none => simp [texIdNe] at h
  | some ct => exact ⟨ct, rfl, by simpa [texIdNe] using h⟩

theorem texRefNe_false_some {cur : Option Texture} {t : Texture} (h : texRefNe cur t = false) :
    ∃ ct, cur = some ct ∧ ct.ref = t.ref := by
  cases cur with
  | none => simp [texRefNe] at h
  | some ct => exact ⟨ct, rfl, by simpa [texRefNe] using h⟩

theorem texIdNe_same (t : Texture) (ct : Texture) (h : ct.id = t.id) :
    texIdNe (some ct) t = false := by
  simp [texIdNe, h]

theorem computeQuad_length (trig : Trig) (c w h xv yv ox oy rot sx sy u1 v1 u2 v2 : ℚ) :
    (computeQuad trig c w h xv yv ox oy rot sx sy u1 v1 u2 v2).length = 20 := rfl

/-- The scale guard is the identity exactly when the factor is 1, so it
always equals plain multiplication. -/
theorem scaleIf_eq (s v : ℚ) : scaleIf s v = v * s := by
  unfold scaleIf
  split_ifs with h
  · rfl
  · rw [not_not] at h
    rw [h, mul_one]

theorem drawPre_of_texture_none {s : SpriteBatch} (t : Texture) (htex : s.texture = none) :
    drawPre s t = { s with texture := some t } := by
  rw [drawPre_switch (by simp [texIdNe, htex]), flush_of_none htex]

/-- Cell `k` of the quad appended by a `draw` in a fresh session (no
texture yet, cursor 0) is cell `k` of `computeQuad` at the resolved
arguments. -/
theorem draw_fresh_cell (trig : Trig) {s : SpriteBatch} (t : Texture)
    (x y width height : Option ℚ) (originX originY rotation scaleX scaleY u1 v1 u2 v2 : ℚ)
    (hd : s.drawing = true) (htex : s.texture = none) (hidx : s.idx = 0)
    (hlen : 20 ≤ s.vertices.length) (k : ℕ) (hk : k < 20) :
    (draw trig s (some t) x y width height originX originY rotation
        scaleX scaleY u1 v1 u2 v2).1.vertices[k]? =
      (computeQuad trig s.color (resolveDim width t.width) (resolveDim height t.height)
        (resolvePos x) (resolvePos y) originX originY rotation scaleX scaleY u1 v1 u2 v2)[k]? := by
  rw [draw_of_some trig t x y width height originX originY rotation scaleX scaleY u1 v1 u2 v2 hd]
  rw [drawPre_of_texture_none t htex]
  dsimp only
  rw [hidx]
  have h0 := writeSeq_getElem?_read
    (computeQuad trig s.color (resolveDim width t.width) (resolveDim height t.height)
      (resolvePos x) (resolvePos y) originX originY rotation scaleX scaleY u1 v1 u2 v2)
    s.vertices 0 k (by rw [computeQuad_length]; omega) (by omega)
  simpa using h0

theorem drawPre_idx_cases (s : SpriteBatch) (t : Texture) :
    (drawPre s t).idx = 0 ∨ (drawPre s t).idx = s.idx := by
  by_cases h : texIdNe s.texture t
  · rw [drawPre_switch h]
    rcases flush_idx s with h0 | h0
    · exact Or.inl h0
    · exact Or.inr (by rw [h0])
  · rw [Bool.not_eq_true] at h
    by_cases hf : s.idx = s.vertices.length
    · rw [drawPre_full h hf]
      rcases flush_idx s with h0 | h0
      · exact Or.inl h0
      · exact Or.inr (by rw [h0])
    · rw [drawPre_keep h hf]
      exact Or.inr rfl

theorem dvPre_idx_cases (s : SpriteBatch) (t : Texture) :
    (dvPre s t).idx = 0 ∨ (dvPre s t).idx = s.idx := by
  by_cases h : texRefNe s.texture t
  · rw [dvPre_switch h]
    rcases flush_idx s with h0 | h0
    · exact Or.inl h0
    · exact Or.inr (by rw [h0])
  · rw [Bool.not_eq_true] at h
    by_cases hf : s.idx = s.vertices.length
    · rw [dvPre_full h hf]
      rcases flush_idx s with h0 | h0
      · exact Or.inl h0
      · exact Or.inr (by rw [h0])
    · rw [dvPre_keep h hf]
      exact Or.inr rfl

theorem drawPre_texture_ne_none (s : SpriteBatch) (t : Texture) :
    (drawPre s t).texture ≠ none := by
  by_cases h : texIdNe s.texture t
  · rw [drawPre_switch h]
    simp
  · rw [Bool.not_eq_true] at h
    obtain ⟨ct, hct, _⟩ := texIdNe_false_some h
    by_cases hf : s.idx = s.vertices.length
    · rw [drawPre_full h hf, flush_texture, hct]
      simp
    · rw [drawPre_keep h hf, hct]
      simp

theorem dvPre_texture_ne_none (s : SpriteBatch) (t : Texture) :
    (dvPre s t).texture ≠ none := by
  by_cases h : texRefNe s.texture t
  · rw [dvPre_switch h]
    simp
  · rw [Bool.not_eq_true] at h
    obtain ⟨ct, hct, _⟩ := texRefNe_false_some h
    by_cases hf : s.idx = s.vertices.length
    · rw [dvPre_full h hf, flush_texture, hct]
      simp
    · rw [dvPre_keep h hf, hct]
      simp

/-- The state invariant maintained along a run of same-texture `draw`
calls that starts from `begin()` on a fresh batch and stays within
capacity: still drawing, buffer length fixed, no render call made, cursor
at `N × 20`, and the texture bound from the first draw on. -/
theorem drawSeq_inv (trig : Trig) (t : Texture) (f : ℕ → DrawArgs) (cap : ℕ) :
    ∀ N : ℕ, N ≤ cap →
      (drawSeq trig t f N (mkBatch cap).beginBatch.1).drawing = true ∧
      (drawSeq trig t f N (mkBatch cap).beginBatch.1).vertices.length = cap * 20 ∧
      (drawSeq trig t f N (mkBatch cap).beginBatch.1).renderCalls = 0 ∧
      (drawSeq trig t f N (mkBatch cap).beginBatch.1).idx = N * 20 ∧
      (drawSeq trig t f N (mkBatch cap).beginBatch.1).texture =
        (if N = 0 then none else some t) := by
  intro N
  induction N with
  | zero =>
    intro _
    refine ⟨rfl, ?_, rfl, rfl, rfl⟩
    simp [drawSeq, mkBatch, beginBatch]
  | succ n ih =>
    intro hle
    obtain ⟨hd, hlen, hrc, hidx, htex⟩ := ih (by omega)
    rw [drawSeq]
    show ((drawA trig (drawSeq trig t f n (mkBatch cap).beginBatch.1) (some t) (f n)).1.drawing
        = true) ∧ _
    rw [drawA]
    rw [draw_of_some trig t (f n).x (f n).y (f n).width (f n).height (f n).originX (f n).originY
      (f n).rotation (f n).scaleX (f n).scaleY (f n).u1 (f n).v1 (f n).u2 (f n).v2 hd]
    dsimp only
    by_cases hn0 : n = 0
    · subst hn0
      rw [if_pos rfl] at htex
      rw [drawPre_of_texture_none t htex]
      refine ⟨hd, ?_, hrc, ?_, ?_⟩
      · rw [writeSeq_length]
        exact hlen
      · rw [hidx]
      · rw [if_neg (by omega)]
    · rw [if_neg hn0] at htex
      have hkeep : drawPre (drawSeq trig t f n (mkBatch cap).beginBatch.1) t =
          drawSeq trig t f n (mkBatch cap).beginBatch.1 := by
        refine drawPre_keep ?_ ?_
        · rw [htex, texIdNe_same t t rfl]
        · rw [hidx, hlen]
          have : n < cap := by omega
          omega
      rw [hkeep]
      refine ⟨hd, ?_, hrc, ?_, ?_⟩
      · rw [writeSeq_length]
        exact hlen
      · rw [hidx]
        ring
      · rw [htex, if_neg (by omega)]

end SpriteBatch

open SpriteBatch

/-! ## The claims -/

/-- Claim C1: in a Drawing session with a non-null texture, `draw` follows
the §4.2 flush policy — a texture differing by id flushes (a real upload
and counter increment exactly when the buffer was non-empty) and rebinds
the texture, cursor ending at 20; a full buffer with the same texture
flushes once, texture unchanged, cursor ending at 20; otherwise the quad
is appended in place, advancing the cursor by exactly 20; and N
same-texture draws from a fresh begun batch with N ≤ capacity leave the
cursor at N × 20 with no render call made. -/
theorem c1_flush_policy :
    (∀ (trig : Trig) (s : SpriteBatch) (ct t : Texture) (x y width height : Option ℚ)
        (originX originY rotation scaleX scaleY u1 v1 u2 v2 : ℚ),
      s.drawing = true → s.texture = some ct → ct.id ≠ t.id →
        (draw trig s (some t) x y width height originX originY rotation scaleX scaleY
            u1 v1 u2 v2).1.texture = some t ∧
        (draw trig s (some t) x y width height originX originY rotation scaleX scaleY
            u1 v1 u2 v2).1.idx = 20 ∧
        (draw trig s (some t) x y width height originX originY rotation scaleX scaleY
            u1 v1 u2 v2).1.renderCalls = s.renderCalls + (if s.idx = 0 then 0 else 1)) ∧
    (∀ (trig : Trig) (s : SpriteBatch) (ct t : Texture) (x y width height : Option ℚ)
        (originX originY rotation scaleX scaleY u1 v1 u2 v2 : ℚ),
      s.drawing = true → s.texture = some ct → ct.id = t.id →
        s.idx = s.vertices.length → s.idx ≠ 0 →
        (draw trig s (some t) x y width height originX originY rotation scaleX scaleY
            u1 v1 u2 v2).1.renderCalls = s.renderCalls + 1 ∧
        (draw trig s (some t) x y width height originX originY rotation scaleX scaleY
            u1 v1 u2 v2).1.texture = some ct ∧
        (draw trig s (some t) x y width height originX originY rotation scaleX scaleY
            u1 v1 u2 v2).1.idx = 20) ∧
    (∀ (trig : Trig) (s : SpriteBatch) (ct t : Texture) (x y width height : Option ℚ)
        (originX originY rotation scaleX scaleY u1 v1 u2 v2 : ℚ),
      s.drawing = true → s.texture = some ct → ct.id = t.id →
        s.idx ≠ s.vertices.length →
        (draw trig s (some t) x y width height originX originY rotation scaleX scaleY
            u1 v1 u2 v2).1.idx = s.idx + 20 ∧
        (draw trig s (some t) x y width height originX originY rotation scaleX scaleY
            u1 v1 u2 v2).1.renderCalls = s.renderCalls ∧
        (draw trig s (some t) x y width height originX originY rotation scaleX scaleY
            u1 v1 u2 v2).1.texture = some ct) ∧
    (∀ (trig : Trig) (t : Texture) (f : ℕ → DrawArgs) (cap N : ℕ), N ≤ cap →
      (drawSeq trig t f N (mkBatch cap).beginBatch.1).idx = N * 20 ∧
      (drawSeq trig t f N (mkBatch cap).beginBatch.1).renderCalls = 0) := by
  refine ⟨?_, ?_, ?_, ?_⟩
  · intro trig s ct t x y width height originX originY rotation scaleX scaleY u1 v1 u2 v2
      hd hct hid
    have hpre : drawPre s t = { s.flush with texture := some t } :=
      drawPre_switch (by simp [texIdNe, hct, hid])
    rw [draw_of_some trig t x y width height originX originY rotation scaleX scaleY
      u1 v1 u2 v2 hd]
    dsimp only
    rw [hpre]
    by_cases h0 : s.idx = 0
    · rw [flush_of_idx_zero h0]
      exact ⟨rfl, by rw [h0], by simp [h0]⟩
    · rw [flush_act hct h0]
      exact ⟨rfl, rfl, by simp [h0]⟩
  · intro trig s ct t x y width height originX originY rotation scaleX scaleY u1 v1 u2 v2
      hd hct hid hful h0
    have hpre : drawPre s t = s.flush :=
      drawPre_full (by simp [texIdNe, hct, hid]) hful
    rw [draw_of_some trig t x y width height originX originY rotation scaleX scaleY
      u1 v1 u2 v2 hd]
    dsimp only
    rw [hpre, flush_act hct h0]
    exact ⟨rfl, hct, rfl⟩
  · intro trig s ct t x y width height originX originY rotation scaleX scaleY u1 v1 u2 v2
      hd hct hid hnf
    have hpre : drawPre s t = s :=
      drawPre_keep (by simp [texIdNe, hct, hid]) hnf
    rw [draw_of_some trig t x y width height originX originY rotation scaleX scaleY
      u1 v1 u2 v2 hd]
    dsimp only
    rw [hpre]
    exact ⟨rfl, rfl, hct⟩
  · intro trig t f cap N hle
    obtain ⟨_, _, hrc, hidx, _⟩ := drawSeq_inv trig t f cap N hle
    exact ⟨hidx, hrc⟩

/-- Witness for C1 at concrete states: a flush-and-rebind on an id switch,
a capacity flush on a full buffer, an in-place append, and a 2-draw
same-texture run in a capacity-2 batch. -/
theorem c1_flush_policy_witness :
    (stateC6.drawing = true ∧ stateC6.texture = some texA ∧ texA.id ≠ texC.id ∧
      (draw trig0 stateC6 (some texC) none none none none 0 0 0 1 1 0 0 1 1).1.texture =
          some texC ∧
      (draw trig0 stateC6 (some texC) none none none none 0 0 0 1 1 0 0 1 1).1.renderCalls =
        stateC6.renderCalls + (if stateC6.idx = 0 then 0 else 1)) ∧
    (stateFull.idx = stateFull.vertices.length ∧
      (draw trig0 stateFull (some texA) none none none none 0 0 0 1 1 0 0 1 1).1.renderCalls =
        stateFull.renderCalls + 1) ∧
    (stateC6.idx ≠ stateC6.vertices.length ∧
      (draw trig0 stateC6 (some texA) none none none none 0 0 0 1 1 0 0 1 1).1.idx =
        stateC6.idx + 20) ∧
    ((drawSeq trig0 texA (fun _ => argsFix) 2 (mkBatch 2).beginBatch.1).idx = 2 * 20 ∧
      (drawSeq trig0 texA (fun _ => argsFix) 2 (mkBatch 2).beginBatch.1).renderCalls = 0) :=
  ⟨⟨by decide, by decide, by decide,
      (c1_flush_policy.1 trig0 stateC6 texA texC none none none none 0 0 0 1 1 0 0 1 1
        (by decide) (by decide) (by decide)).1,
      (c1_flush_policy.1 trig0 stateC6 texA texC none none none none 0 0 0 1 1 0 0 1 1
        (by decide) (by decide) (by decide)).2.2⟩,
    ⟨by decide,
      (c1_flush_policy.2.1 trig0 stateFull texA texA none none none none 0 0 0 1 1 0 0 1 1
        (by decide) (by decide) (by decide) (by decide) (by decide)).1⟩,
    ⟨by decide,
      (c1_flush_policy.2.2.1 trig0 stateC6 texA texA none none none none 0 0 0 1 1 0 0 1 1
        (by decide) (by decide) (by decide) (by decide)).1⟩,
    c1_flush_policy.2.2.2 trig0 texA (fun _ => argsFix) 2 2 (by omega)⟩

/-- Claim C2: the corner pipeline of `draw` equals the spec's transform —
local corners `(−ox,−oy), (w−ox,−oy), (w−ox,h−oy), (−ox,h−oy)`, scaled
componentwise, rotated by the standard 2D rotation when θ ≠ 0, translated
by `(x+ox, y+oy)` — with UVs paired in order
`(u1,v1), (u2,v1), (u2,v2), (u1,v2)`; and concretely
`draw(tex, 10, 20, 30, 40)` at the defaults yields corners
`(10,20), (40,20), (40,60), (10,60)` with UVs
`(0,0), (1,0), (1,1), (0,1)`. -/
theorem c2_quad_geometry :
    (∀ (trig : Trig) (c w h xv yv ox oy rot sx sy u1 v1 u2 v2 : ℚ),
      computeQuad trig c w h xv yv ox oy rot sx sy u1 v1 u2 v2 =
        specQuadVals c u1 v1 u2 v2
          ((specLocalCorners w h ox oy).map
            (specCorner trig rot sx sy (xv + ox) (yv + oy)))) ∧
    (∀ trig : Trig,
      ((draw trig (mkBatch 2).beginBatch.1 (some texW) (some 10) (some 20) (some 30) (some 40)
            0 0 0 1 1 0 0 1 1).1.vertices[0]? = some (some 10) ∧
        (draw trig (mkBatch 2).beginBatch.1 (some texW) (some 10) (some 20) (some 30) (some 40)
            0 0 0 1 1 0 0 1 1).1.vertices[1]? = some (some 20) ∧
        (draw trig (mkBatch 2).beginBatch.1 (some texW) (some 10) (some 20) (some 30) (some 40)
            0 0 0 1 1 0 0 1 1).1.vertices[5]? = some (some 40) ∧
        (draw trig (mkBatch 2).beginBatch.1 (some texW) (some 10) (some 20) (some 30) (some 40)
            0 0 0 1 1 0 0 1 1).1.vertices[6]? = some (some 20) ∧
        (draw trig (mkBatch 2).beginBatch.1 (some texW) (some 10) (some 20) (some 30) (some 40)
            0 0 0 1 1 0 0 1 1).1.vertices[10]? = some (some 40) ∧
        (draw trig (mkBatch 2).beginBatch.1 (some texW) (some 10) (some 20) (some 30) (some 40)
            0 0 0 1 1 0 0 1 1).1.vertices[11]? = some (some 60) ∧
        (draw trig (mkBatch 2).beginBatch.1 (some texW) (some 10) (some 20) (some 30) (some 40)
            0 0 0 1 1 0 0 1 1).1.vertices[15]? = some (some 10) ∧
        (draw trig (mkBatch 2).beginBatch.1 (some texW) (some 10) (some 20) (some 30) (some 40)
            0 0 0 1 1 0 0 1 1).1.vertices[16]? = some (some 60)) ∧
      ((draw trig (mkBatch 2).beginBatch.1 (some texW) (some 10) (some 20) (some 30) (some 40)
            0 0 0 1 1 0 0 1 1).1.vertices[3]? = some (some 0) ∧
        (draw trig (mkBatch 2).beginBatch.1 (some texW) (some 10) (some 20) (some 30) (some 40)
            0 0 0 1 1 0 0 1 1).1.vertices[4]? = some (some 0) ∧
        (draw trig (mkBatch 2).beginBatch.1 (some texW) (some 10) (some 20) (some 30) (some 40)
            0 0 0 1 1 0 0 1 1).1.vertices[8]? = some (some 1) ∧
        (draw trig (mkBatch 2).beginBatch.1 (some texW) (some 10) (some 20) (some 30) (some 40)
            0 0 0 1 1 0 0 1 1).1.vertices[9]? = some (some 0) ∧
        (draw trig (mkBatch 2).beginBatch.1 (some texW) (some 10) (some 20) (some 30) (some 40)
            0 0 0 1 1 0 0 1 1).1.vertices[13]? = some (some 1) ∧
        (draw trig (mkBatch 2).beginBatch.1 (some texW) (some 10) (some 20) (some 30) (some 40)
            0 0 0 1 1 0 0 1 1).1.vertices[14]? = some (some 1) ∧
        (draw trig (mkBatch 2).beginBatch.1 (some texW) (some 10) (some 20) (some 30) (some 40)
            0 0 0 1 1 0 0 1 1).1.vertices[18]? = some (some 0) ∧
        (draw trig (mkBatch 2).beginBatch.1 (some texW) (some 10) (some 20) (some 30) (some 40)
            0 0 0 1 1 0 0 1 1).1.vertices[19]? = some (some 1))) := by
  constructor
  · intro trig c w h xv yv ox oy rot sx sy u1 v1 u2 v2
    simp only [computeQuad, specQuadVals, specLocalCorners, specCorner, specScale, specRotate,
      scaleIf_eq, rotXIf, rotYIf, List.map]
    by_cases hrot : rot = 0
    · simp [hrot]
    · simp only [ne_eq, hrot, not_false_iff, if_true, Option.some.injEq, List.cons.injEq,
        and_true, List.nil_eq]
      ring_nf
      tauto
  · intro trig
    refine ⟨⟨?_, ?_, ?_, ?_, ?_, ?_, ?_, ?_⟩, ?_, ?_, ?_, ?_, ?_, ?_, ?_, ?_⟩ <;>
      rw [draw_fresh_cell trig texW (some 10) (some 20) (some 30) (some 40) 0 0 0 1 1 0 0 1 1
        rfl rfl rfl (by decide) _ (by omega)] <;>
      simp [computeQuad, scaleIf, rotXIf, rotYIf, resolveDim, resolvePos] <;> norm_num

/-- Claim C3: `flush()` is a silent no-op — returning the state unchanged,
counter included — exactly when the current texture is none or the cursor
is 0; otherwise it increments the render-call counter by exactly 1, resets
the cursor to 0, and leaves everything else (the current texture in
particular) unchanged; hence `end()` straight after `begin()` neither
uploads nor increments the counter. -/
theorem c3_flush_semantics :
    (∀ s : SpriteBatch, s.texture = none ∨ s.idx = 0 → s.flush = s) ∧
    (∀ (s : SpriteBatch) (t : Texture), s.texture = some t → s.idx ≠ 0 →
      s.flush = { s with idx := 0, renderCalls := s.renderCalls + 1 }) ∧
    (∀ cap : ℕ,
      (mkBatch cap).beginBatch.1.endBatch.1.renderCalls = (mkBatch cap).renderCalls ∧
        (mkBatch cap).beginBatch.1.endBatch.1.idx = 0) := by
  refine ⟨?_, ?_, ?_⟩
  · rintro s (h | h)
    · exact flush_of_none h
    · exact flush_of_idx_zero h
  · intro s t h h0
    exact flush_act h h0
  · intro cap
    constructor <;> rfl

/-- Witness for C3: an acting flush on a non-empty buffer, a no-op flush
on a fresh batch, and a begin/end pair leaving the counter at 0. -/
theorem c3_flush_semantics_witness :
    (stateC6.texture = some texA ∧ stateC6.idx ≠ 0) ∧
    stateC6.flush = { stateC6 with idx := 0, renderCalls := stateC6.renderCalls + 1 } ∧
    ((mkBatch 1).texture = none ∧ (mkBatch 1).flush = mkBatch 1) ∧
    (mkBatch 1).beginBatch.1.endBatch.1.renderCalls = (mkBatch 1).renderCalls :=
  ⟨⟨by decide, by decide⟩,
    c3_flush_semantics.2.1 stateC6 texA (by decide) (by decide),
    ⟨by decide, c3_flush_semantics.1 (mkBatch 1) (Or.inl (by decide))⟩,
    (c3_flush_semantics.2.2 1).1⟩

/-- Claim C4 (code bug): `drawRegion` does not forward the region's UV
rectangle into `draw`'s `u1, v1, u2, v2` parameters — its nine positional
arguments land in `originX, originY, rotation, scaleX`, leaving the UVs at
their defaults.  Concretely, after `drawRegion` on a fresh begun batch the
first vertex's U cell holds the default 0 rather than `region.u = 3`,
whereas the `draw` call the claim says it is equivalent to writes 3
there. -/
theorem c4_drawRegion_bug :
    (drawRegion trig0 (mkBatch 2).beginBatch.1 regFix (some 10) (some 20) (some 30)
          (some 40)).1.vertices[3]? = some (some 0) ∧
      regFix.u = 3 ∧ (3 : ℚ) ≠ 0 ∧
      (draw trig0 (mkBatch 2).beginBatch.1 (some regFix.texture) (some 10) (some 20) (some 30)
            (some 40) 0 0 0 1 1 regFix.u regFix.v regFix.u2 regFix.v2).1.vertices[3]? =
        some (some 3) := by
  refine ⟨by decide, by decide, by decide, by decide⟩

/-- Claim C5 (code bug): `setProjection` while Drawing never flushes — it
stores the new matrix and then raises a ReferenceError from the undeclared
`x`/`oldX`/`y`/`oldY` comparison, both for a changed matrix and for an
unchanged one (where the claim requires a silent no-op). -/
theorem c5_setProjection_bug :
    ((mkBatch 1).beginBatch.1.setProjection 42).2 = some JsErr.referenceError ∧
    ((mkBatch 1).beginBatch.1.setProjection 42).1.renderCalls =
      (mkBatch 1).beginBatch.1.renderCalls ∧
    ((mkBatch 1).beginBatch.1.setProjection 42).1.projection = 42 ∧
    ((mkBatch 1).beginBatch.1.setProjection ((mkBatch 1).beginBatch.1.projection)).2 =
      some JsErr.referenceError := by
  refine ⟨rfl, rfl, rfl, rfl⟩

/-- Claim C6 refuted: from the same mid-session state, a supplied texture
that is a different object with the same id as the current one does not
flush in `draw` (the counter stays put) but does flush in `drawVertices`
(the counter increments), so the two flush decisions are not identical. -/
theorem c6_counterexample :
    texA.id = texB.id ∧ stateC6.texture = some texA ∧
    (draw trig0 stateC6 (some texB) none none none none 0 0 0 1 1 0 0 1 1).1.renderCalls =
      stateC6.renderCalls ∧
    (stateC6.drawVertices (some texB) [] none).1.renderCalls = stateC6.renderCalls + 1 := by
  refine ⟨by decide, by decide, by decide, by decide⟩

/-- Claim C6 as amended: `drawVertices` applies the same
texture-switch/capacity policy as `draw` except that it compares textures
by object reference rather than by id — the two preludes agree when no
texture is bound, when the supplied texture differs in both id and
reference, and when it is the identical object; but a different object
with an equal id makes `drawVertices` flush-and-rebind where `draw` only
checks capacity. -/
theorem c6_amended :
    (∀ (s : SpriteBatch) (t : Texture), s.texture = none → dvPre s t = drawPre s t) ∧
    (∀ (s : SpriteBatch) (ct t : Texture), s.texture = some ct → ct.id ≠ t.id → ct.ref ≠ t.ref →
      dvPre s t = drawPre s t) ∧
    (∀ (s : SpriteBatch) (ct t : Texture), s.texture = some ct → ct.id = t.id → ct.ref = t.ref →
      dvPre s t = drawPre s t) ∧
    (∀ (s : SpriteBatch) (ct t : Texture), s.texture = some ct → ct.id = t.id → ct.ref ≠ t.ref →
      dvPre s t = { s.flush with texture := some t } ∧
        drawPre s t = if s.idx = s.vertices.length then s.flush else s) := by
  refine ⟨?_, ?_, ?_, ?_⟩
  · intro s t htex
    rw [dvPre_switch (by simp [texRefNe, htex]), drawPre_switch (by simp [texIdNe, htex])]
  · intro s ct t htex hid href
    rw [dvPre_switch (by simp [texRefNe, htex, href]),
      drawPre_switch (by simp [texIdNe, htex, hid])]
  · intro s ct t htex hid href
    have h1 : texRefNe s.texture t = false := by simp [texRefNe, htex, href]
    have h2 : texIdNe s.texture t = false := by simp [texIdNe, htex, hid]
    by_cases hf : s.idx = s.vertices.length
    · rw [dvPre_full h1 hf, drawPre_full h2 hf]
    · rw [dvPre_keep h1 hf, drawPre_keep h2 hf]
  · intro s ct t htex hid href
    have h2 : texIdNe s.texture t = false := by simp [texIdNe, htex, hid]
    refine ⟨dvPre_switch (by simp [texRefNe, htex, href]), ?_⟩
    by_cases hf : s.idx = s.vertices.length
    · rw [drawPre_full h2 hf, if_pos hf]
    · rw [drawPre_keep h2 hf, if_neg hf]

/-- Witness for the amended C6: agreement on a fresh batch, and the
divergent same-id/different-reference case at a concrete mid-session
state. -/
theorem c6_amended_witness :
    ((mkBatch 1).texture = none ∧ dvPre (mkBatch 1) texA = drawPre (mkBatch 1) texA) ∧
    (stateC6.texture = some texA ∧ texA.id = texB.id ∧ texA.ref ≠ texB.ref ∧
      dvPre stateC6 texB = { stateC6.flush with texture := some texB } ∧
      drawPre stateC6 texB =
        if stateC6.idx = stateC6.vertices.length then stateC6.flush else stateC6) :=
  ⟨⟨by decide, c6_amended.1 (mkBatch 1) texA (by decide)⟩,
    ⟨by decide, by decide, by decide,
      (c6_amended.2.2.2 stateC6 texA texB (by decide) (by decide) (by decide)).1,
      (c6_amended.2.2.2 stateC6 texA texB (by decide) (by decide) (by decide)).2⟩⟩

/-- Claim C7: in every state reachable by any sequence of
begin/draw/drawVertices/flush/end calls from a freshly constructed batch,
the cursor is a multiple of 20 (= vertexSize × 4), and the current texture
is non-null whenever the cursor is positive. -/
theorem c7_invariants :
    ∀ s : SpriteBatch, Reachable s → s.idx % 20 = 0 ∧ (0 < s.idx → s.texture ≠ none) := by
  intro s h
  induction h with
  | init cap =>
    refine ⟨rfl, ?_⟩
    intro h0
    simp [mkBatch] at h0
  | @stepBegin s a ih =>
    by_cases hd : s.drawing <;> simpa [beginBatch, hd] using ih
  | @stepEnd s a ih =>
    by_cases hd : s.drawing
    · rcases flush_idx s with h0 | h0
      · simp [endBatch, hd, h0]
      · simpa [endBatch, hd, h0] using ih
    · simpa [endBatch, hd] using ih
  | @stepFlush s a ih =>
    rcases flush_idx s with h0 | h0
    · simp [h0]
    · rw [h0]
      exact ih
  | @stepDraw s trig texture x y width height originX originY rotation scaleX scaleY
      u1 v1 u2 v2 a ih =>
    obtain ⟨ih1, ih2⟩ := ih
    cases hd : s.drawing with
    | false =>
      rw [draw_of_not_drawing trig texture x y width height originX originY rotation
        scaleX scaleY u1 v1 u2 v2 hd]
      exact ⟨ih1, ih2⟩
    | true =>
      match texture with
      | none =>
        rw [draw_of_none trig x y width height originX originY rotation scaleX scaleY
          u1 v1 u2 v2 hd]
        exact ⟨ih1, ih2⟩
      | some t =>
        rw [draw_of_some trig t x y width height originX originY rotation scaleX scaleY
          u1 v1 u2 v2 hd]
        dsimp only
        constructor
        · rcases drawPre_idx_cases s t with h0 | h0
          · simp [h0]
          · rw [h0]
            omega
        · intro _
          exact drawPre_texture_ne_none s t
  | @stepDrawVertices s texture verts off a ih =>
    obtain ⟨ih1, ih2⟩ := ih
    cases hd : s.drawing with
    | false =>
      rw [drawVertices_of_not_drawing texture verts off hd]
      exact ⟨ih1, ih2⟩
    | true =>
      match texture with
      | none =>
        rw [drawVertices_of_none verts off hd]
        exact ⟨ih1, ih2⟩
      | some t =>
        rw [drawVertices_of_some t verts off hd]
        dsimp only
        constructor
        · rcases dvPre_idx_cases s t with h0 | h0
          · simp [h0]
          · rw [h0]
            omega
        · intro _
          exact dvPre_texture_ne_none s t

/-- Witness for C7 at the freshly constructed capacity-2 batch. -/
theorem c7_invariants_witness :
    (mkBatch 2).idx % 20 = 0 ∧ (0 < (mkBatch 2).idx → (mkBatch 2).texture ≠ none) :=
  c7_invariants (mkBatch 2) (Reachable.init 2)

/-- Claim C8: `draw` and `drawVertices` invoked while not Drawing — with
any arguments, a null texture included — return the IllegalState error
synchronously and leave the state unchanged. -/
theorem c8_illegal_state :
    ∀ (trig : Trig) (s : SpriteBatch) (texture : Option Texture)
      (x y width height : Option ℚ) (originX originY rotation scaleX scaleY u1 v1 u2 v2 : ℚ)
      (verts : List ℚ) (off : Option ℕ),
      s.drawing = false →
      draw trig s texture x y width height originX originY rotation scaleX scaleY u1 v1 u2 v2 =
          (s, some JsErr.illegalState) ∧
        s.drawVertices texture verts off = (s, some JsErr.illegalState) := by
  intro trig s texture x y width height originX originY rotation scaleX scaleY u1 v1 u2 v2
    verts off h
  exact ⟨draw_of_not_drawing trig texture x y width height originX originY rotation
      scaleX scaleY u1 v1 u2 v2 h,
    drawVertices_of_not_drawing texture verts off h⟩

/-- Witness for C8 on a freshly constructed (Idle) batch. -/
theorem c8_illegal_state_witness :
    (mkBatch 1).drawing = false ∧
      draw trig0 (mkBatch 1) (some texA) none none none none 0 0 0 1 1 0 0 1 1 =
        (mkBatch 1, some JsErr.illegalState) ∧
      (mkBatch 1).drawVertices (some texA) [1, 2] none = (mkBatch 1, some JsErr.illegalState) :=
  ⟨by decide,
    c8_illegal_state trig0 (mkBatch 1) (some texA) none none none none 0 0 0 1 1 0 0 1 1
      [1, 2] none (by decide)⟩

/-- Claim C9: an unset width/height falls back to the texture's natural
dimension while an explicit 0 is honored (the quad is degenerate, not
texture-sized), and an unset position defaults to 0 — stated on the
resolution functions and end-to-end on the appended corner cells. -/
theorem c9_dimension_defaults :
    (∀ tw : ℚ, resolveDim none tw = tw) ∧
    (∀ tw : ℚ, resolveDim (some 0) tw = 0) ∧
    resolvePos none = 0 ∧
    (∀ (trig : Trig) (s : SpriteBatch) (t : Texture),
      s.drawing = true → s.texture = none → s.idx = 0 → 20 ≤ s.vertices.length →
      ((draw trig s (some t) none none none none 0 0 0 1 1 0 0 1 1).1.vertices[0]? =
          some (some 0) ∧
        (draw trig s (some t) none none none none 0 0 0 1 1 0 0 1 1).1.vertices[1]? =
          some (some 0) ∧
        (draw trig s (some t) none none none none 0 0 0 1 1 0 0 1 1).1.vertices[5]? =
          some (some t.width) ∧
        (draw trig s (some t) none none none none 0 0 0 1 1 0 0 1 1).1.vertices[11]? =
          some (some t.height)) ∧
      ((draw trig s (some t) none none (some 0) (some 0) 0 0 0 1 1 0 0 1 1).1.vertices[5]? =
          some (some 0) ∧
        (draw trig s (some t) none none (some 0) (some 0) 0 0 0 1 1 0 0 1 1).1.vertices[11]? =
          some (some 0))) := by
  refine ⟨fun tw => rfl, fun tw => by simp [resolveDim], rfl, ?_⟩
  intro trig s t hd htex hidx hlen
  constructor
  · refine ⟨?_, ?_, ?_, ?_⟩ <;>
      rw [draw_fresh_cell trig t none none none none 0 0 0 1 1 0 0 1 1 hd htex hidx hlen _
        (by omega)] <;>
      simp [computeQuad, scaleIf, rotXIf, rotYIf, resolveDim, resolvePos]
  · constructor <;>
      rw [draw_fresh_cell trig t none none (some 0) (some 0) 0 0 0 1 1 0 0 1 1 hd htex hidx hlen _
        (by omega)] <;>
      simp [computeQuad, scaleIf, rotXIf, rotYIf, resolveDim, resolvePos]

/-- Witness for C9 on a begun capacity-1 batch and the 16×16 texture:
unset width yields a texture-wide quad, explicit 0 yields a degenerate
one. -/
theorem c9_dimension_defaults_witness :
    ((mkBatch 1).beginBatch.1.drawing = true ∧ (mkBatch 1).beginBatch.1.texture = none) ∧
    (draw trig0 (mkBatch 1).beginBatch.1 (some texW) none none none none
        0 0 0 1 1 0 0 1 1).1.vertices[5]? = some (some texW.width) ∧
    (draw trig0 (mkBatch 1).beginBatch.1 (some texW) none none (some 0) (some 0)
        0 0 0 1 1 0 0 1 1).1.vertices[5]? = some (some 0) :=
  have h := c9_dimension_defaults.2.2.2 trig0 (mkBatch 1).beginBatch.1 texW
    (by decide) (by decide) (by decide) (by decide)
  ⟨⟨by decide, by decide⟩, h.1.2.2.1, h.2.1⟩

/-- Claim C10: `drawVertices` performs no bounds check — in a Drawing
session with a non-null texture it raises no error, advances the cursor by
exactly 20, copies `verts[off] .. verts[off+19]` into the buffer at the
cursor, and a read past the end of `verts` yields the absent value
(`none`), which is written into the buffer cell. -/
theorem c10_no_bounds_check :
    ∀ (s : SpriteBatch) (t : Texture) (verts : List ℚ) (off : Option ℕ),
      s.drawing = true →
      (s.drawVertices (some t) verts off).2 = none ∧
      (s.drawVertices (some t) verts off).1.idx = (s.dvPre t).idx + 20 ∧
      (∀ k : ℕ, k < 20 → (s.dvPre t).idx + 20 ≤ (s.dvPre t).vertices.length →
        (s.drawVertices (some t) verts off).1.vertices[(s.dvPre t).idx + k]? =
          some verts[offVal off + k]?) ∧
      (∀ k : ℕ, k < 20 → (s.dvPre t).idx + 20 ≤ (s.dvPre t).vertices.length →
        verts.length ≤ offVal off + k →
        (s.drawVertices (some t) verts off).1.vertices[(s.dvPre t).idx + k]? = some none) := by
  intro s t verts off hd
  have hread : ∀ k : ℕ, k < 20 → (s.dvPre t).idx + 20 ≤ (s.dvPre t).vertices.length →
      (s.drawVertices (some t) verts off).1.vertices[(s.dvPre t).idx + k]? =
        some verts[offVal off + k]? := by
    intro k hk hlen
    rw [drawVertices_of_some t verts off hd]
    rw [writeSeq_getElem?_read]
    · simp [List.getElem?_range hk]
    · simpa using hk
    · omega
  refine ⟨by rw [drawVertices_of_some t verts off hd],
    by rw [drawVertices_of_some t verts off hd], hread, ?_⟩
  intro k hk hlen hoob
  rw [hread k hk hlen, List.getElem?_eq_none hoob]

/-- Witness for C10: a 3-element vertex array read from offset 0 in a
mid-session state; the 6th copied cell (index 5, past the array) lands in
the buffer as the absent value. -/
theorem c10_no_bounds_check_witness :
    (stateC6.drawVertices (some texB) [1, 2, 3] none).2 = none ∧
    (stateC6.drawVertices (some texB) [1, 2, 3] none).1.idx = (stateC6.dvPre texB).idx + 20 ∧
    (stateC6.drawVertices (some texB) [1, 2, 3] none).1.vertices[(stateC6.dvPre texB).idx + 5]? =
      some none :=
  have h := c10_no_bounds_check stateC6 texB [1, 2, 3] none (by decide)
  ⟨h.1, h.2.1, h.2.2.2 5 (by decide) (by decide) (by decide)⟩
